import Mathlib

/-!
Verification development for the Scrum Supporter application
(`src/app.py`).

The file gives a shallow embedding of the three pieces of the program the
specification talks about and proves the specified properties about them:

* `extract_pdf_data` — the document preprocessor: given a PDF it returns
  the tuple `(full_text, toc_text, toc_error, pdf_error)`;
* `get_ai_suggestions` — the suggestion requester: credential guard,
  prompt construction and the single external service call;
* `mainSubmit` — the dispatch performed by `main` when the form is
  submitted (length validation, credential check, suggestion call).

The PDF library is modelled by a `Doc` record carrying exactly the
observations the code makes of the document: whether the path exists on
disk, the text of each page, the embedded table of contents and whether
opening/reading raises an exception.  Python strings are Lean `String`s;
`str.strip`, `str.split` on a newline and the membership/`isdigit` tests
are re-implemented structurally below so that every definition evaluates
inside the kernel.
-/

/-- One entry of the embedded table of contents, as produced by
`doc.get_toc()` in the source: a `(level, title, page)` triple. -/
structure TocEntry where
  level : Nat
  title : String
  page : Int
deriving DecidableEq

/-- A document as observed by `extract_pdf_data`: the path handed to the
function, whether `os.path.exists` holds for it, the per-page texts
returned by `page.get_text("text")` in page order, the embedded table of
contents (`doc.get_toc()`, `[]` when the PDF has none), and whether
`fitz.open` raises (with the exception's text). -/
structure Doc where
  path : String
  pathOnDisk : Bool
  pages : List String
  toc : List TocEntry
  readFails : Bool
  failMsg : String

/-- Helper for `splitLines`, accumulating the current line reversed. -/
def splitLinesAux : List Char → List Char → List String
  | [], acc => [String.mk acc.reverse]
  | '\n' :: cs, acc => String.mk acc.reverse :: splitLinesAux cs []
  | c :: cs, acc => splitLinesAux cs (c :: acc)

/-- Embedding of Python's `text.split` at a newline character: the
segments between newline characters, empty segments included. -/
def splitLines (s : String) : List String := splitLinesAux s.data []

/-- Embedding of Python's `line.strip()`: drop leading and trailing
whitespace characters. -/
def pyStrip (s : String) : String :=
  String.mk (((s.data.dropWhile Char.isWhitespace).reverse.dropWhile
    Char.isWhitespace).reverse)

/-- Embedding of the membership test `"..." in clean_line`: the text
contains a run of three consecutive period characters. -/
def hasTripleDot : List Char → Bool
  | '.' :: '.' :: '.' :: _ => true
  | _ :: cs => hasTripleDot cs
  | [] => false

/-- Embedding of `any(char.isdigit() for char in clean_line)`. -/
def containsDigit (cs : List Char) : Bool := cs.any Char.isDigit

/-- Embedding of `clean_line[-1].isdigit()` for a nonempty line
(`false` on the empty line, which the source rules out separately). -/
def lastIsDigit : List Char → Bool
  | [] => false
  | [c] => c.isDigit
  | _ :: c :: cs => lastIsDigit (c :: cs)

/-- First heuristic of the fallback scan (line 78 of the source):
`"..." in clean_line and any(char.isdigit() for char in clean_line)`. -/
def isTocCand1 (clean : String) : Bool :=
  hasTripleDot clean.data && containsDigit clean.data

/-- Second heuristic of the fallback scan (line 81 of the source), tested
only when the first fails:
`clean_line and clean_line[-1].isdigit() and len(clean_line) > 3`. -/
def isTocCand2 (clean : String) : Bool :=
  !clean.data.isEmpty && lastIsDigit clean.data &&
    decide (3 < clean.data.length)

/-- The fixed text `toc_text` is initialised with (line 50). -/
def tocHeader : String :=
  "Inhaltsverzeichnis von 'Öffentliches Gestalten':\n\n"

/-- The non-fatal warning set when the fallback scan finds fewer than 3
candidate lines (line 87). -/
def tocWarnMsg : String :=
  "Konnte kein detailliertes Inhaltsverzeichnis extrahieren. Analyse basiert auf Volltext."

/-- The message returned when the path does not exist (line 56). -/
def notFoundMsg (pdf_path : String) : String :=
  "Fehler: Die Handbuchdatei '" ++ pdf_path ++ "' wurde nicht gefunden."

/-- The fatal message built from a caught exception (line 100). -/
def pdfErrorMsg (e : String) : String :=
  "Fehler bei der PDF-Verarbeitung: " ++ e

/-- Body of the inner loop of the fallback scan (lines 76-84): strip the
line, test the two heuristics in an if/elif cascade, and on a match
append `"- " ++ clean ++ "\n"` to the accumulated text and bump the
candidate counter. -/
def scanLine (acc : String × Nat) (line : String) : String × Nat :=
  let clean := pyStrip line
  if isTocCand1 clean then (acc.1 ++ "- " ++ clean ++ "\n", acc.2 + 1)
  else if isTocCand2 clean then (acc.1 ++ "- " ++ clean ++ "\n", acc.2 + 1)
  else acc

/-- One page of the fallback scan: split the page text into lines and run
`scanLine` over them (lines 73-84). -/
def scanPage (acc : String × Nat) (text : String) : String × Nat :=
  (splitLines text).foldl scanLine acc

/-- The fallback scan (lines 68-84): at most the first
`min(10, page_count)` pages, starting from the header text with a zero
candidate count. -/
def fallbackScan (pages : List String) : String × Nat :=
  (pages.take 10).foldl scanPage (tocHeader, 0)

/-- Embedding of `"  " * (level - 1)` (line 65). -/
def indentFor (level : Nat) : String :=
  String.mk (List.replicate (2 * (level - 1)) ' ')

/-- One rendered line of the embedded table of contents (line 66):
`f"{indent}- {title} (Seite {page})\n"`. -/
def renderTocEntry (e : TocEntry) : String :=
  indentFor e.level ++ "- " ++ e.title ++ " (Seite " ++ toString e.page ++ ")\n"

/-- Rendering of a nonempty embedded table of contents (lines 63-66):
start from the header and append one line per entry. -/
def embeddedTocText (toc : List TocEntry) : String :=
  toc.foldl (fun acc e => acc ++ renderTocEntry e) tocHeader

/-- The full-text loop (lines 91-95): for each 0-based page index append
`f"\n\n[Seite {page_num + 1}]\n{page_text}"`. -/
def fullTextOf (pages : List String) : String :=
  pages.enum.foldl
    (fun acc p => acc ++ "\n\n[Seite " ++ toString (p.1 + 1) ++ "]\n" ++ p.2) ""

/-- The contract tuple of `extract_pdf_data`:
`(full_text, toc_text, toc_error, pdf_error)`. -/
structure ExtractResult where
  full_text : Option String
  toc_text : Option String
  toc_error : Option String
  pdf_error : Option String
deriving DecidableEq

/-- Embedding of `extract_pdf_data` (lines 44-103).  The exception case
is modelled as raised at `fitz.open`, before any extraction, matching the
specification's "exception during open/read". -/
def extract_pdf_data (d : Doc) : ExtractResult :=
  if !d.pathOnDisk then
    { full_text := none, toc_text := none,
      toc_error := some (notFoundMsg d.path), pdf_error := none }
  else if d.readFails then
    { full_text := none, toc_text := none,
      toc_error := none, pdf_error := some (pdfErrorMsg d.failMsg) }
  else
    let tocPair : Option String × Option String :=
      if d.toc.isEmpty then
        let s := fallbackScan d.pages
        if s.2 < 3 then (none, some tocWarnMsg) else (some s.1, none)
      else (some (embeddedTocText d.toc), none)
    { full_text := some (fullTextOf d.pages), toc_text := tocPair.1,
      toc_error := tocPair.2, pdf_error := none }

/-- The per-line predicate of the fallback scan: one of the two
heuristics holds for the stripped line. -/
def linePred (clean : String) : Bool := isTocCand1 clean || isTocCand2 clean

/-- The candidate lines a list of page texts yields: every line of every
page, stripped, that satisfies one of the heuristics, in order. -/
def candLines (ps : List String) : List String :=
  (ps.flatMap (fun t => (splitLines t).map pyStrip)).filter linePred

/-- The candidate lines of the fallback scan over a document's pages:
only the first 10 pages are scanned. -/
def matchedLines (pages : List String) : List String :=
  candLines (pages.take 10)

/-- Rendering of a list of candidate lines as the scan appends them:
`"- " ++ line ++ "\n"` for each. -/
def renderCandidates : List String → String
  | [] => ""
  | c :: cs => "- " ++ c ++ "\n" ++ renderCandidates cs

/-- Concatenation of a list of strings. -/
def concatStrings : List String → String
  | [] => ""
  | s :: ss => s ++ concatStrings ss

/-- The pages paired with their 1-based page numbers, starting at `n`. -/
def markedPages : Nat → List String → List (Nat × String)
  | _, [] => []
  | n, t :: ts => (n, t) :: markedPages (n + 1) ts

/-- The text block one page contributes to the full text: the
page-boundary marker followed by the page's raw text. -/
def pageBlock (p : Nat × String) : String :=
  "\n\n[Seite " ++ toString p.1 ++ "]\n" ++ p.2

/-- Number of leading space characters of a string. -/
def countLeadingSpaces (s : String) : Nat :=
  (s.data.takeWhile (fun c => c == ' ')).length

/-- Python truthiness of the credential: `not API_KEY` holds when the
key is `None` or the empty string. -/
def keyFalsy : Option String → Bool
  | none => true
  | some s => s.data.isEmpty

/-- The message shown by `get_ai_suggestions` when no credential is
configured (line 131). -/
def apiKeyMissingMsg : String :=
  "Google API-Schlüssel nicht konfiguriert. Bitte .env-Datei prüfen."

/-- The diagnostic shown when the external call fails (line 206). -/
def apiFailMsg (e : String) : String :=
  "Fehler bei der Kommunikation mit der Gemini API: " ++ e

/-- The fixed instructional prompt of `get_ai_suggestions`
(lines 140-180), with the user's problem description interpolated
verbatim. -/
def promptTemplate (problem_description : String) : String :=
  "\nDu bist ein Expertenassistent, der einem Creative Director bei der Betreuung von Universitätsprojekten hilft.\nDie Projekte basieren auf den Methoden im Handbuch 'Öffentliches Gestalten'.\nDeine Aufgabe ist es, relevante Übungen/Abschnitte aus dem Handbuch vorzuschlagen, um spezifische Teamprobleme zu lösen.\n\nPROBLEMBESCHREIBUNG DES BENUTZERS:\n\""
  ++ problem_description ++
  "\"\n\nAUFGABE:\n1. Analysiere die Kernprobleme in der Beschreibung des Benutzers.\n2. Identifiziere die relevantesten Übungen, die diese Probleme direkt ansprechen:\n   - Bei einfachen Problemen schlage nur die eine beste Übung vor.\n   - Bei komplexeren Problemen schlage bis zu 3 Übungen vor, wenn wirklich mehrere Ansätze notwendig sind.\n\n3. Für jeden Übungsvorschlag extrahiere:\n   - Den exakten Titel der Übung.\n   - Die exakten Seitenzahlen des gesamten Übungsabschnitts (von Anfang bis Ende).\n   - Die exakte Seitenzahl, auf der der \"Vorgehen\"-Abschnitt beginnt.\n   - Alle angegebenen Metadaten zur Übung wie Zeitrahmen, Niveau, benötigte Materialien und Rollen.\n\nANTWORTFORMAT:\nStrukturiere deine Antwort folgendermaßen:\n\n## 🔍 Problembeschreibung\n[Kurze Zusammenfassung des Kernproblems in 1-2 Sätzen]\n\n## 💡 Empfohlene Übung(en)\n### 📋 [Titel der Übung 1]\n- **Seiten:** [Seitenbereich z.B. 45-48]\n- **Vorgehen beginnt auf:** Seite [Seitenzahl]\n- **Zeitrahmen:** [Zeit aus dem Handbuch]\n- **Niveau:** [Niveau aus dem Handbuch]\n- **Materialien:** [Benötigte Materialien]\n- **Rollen:** [Benötigte Rollen]\n\n### 📋 [Titel der Übung 2] (falls nötig)\n[Gleiche Struktur wie oben]\n\n## ✅ Warum diese Übung(en) passen\n[Erklärung, wie die Übung(en) das Problem adressieren]\n"

/-- Outcome of the one call to the external generative service:
either the response's text payload, or a raised failure's text. -/
inductive ApiOutcome where
  | ok (text : String)
  | err (msg : String)

/-- Observable result of a `get_ai_suggestions` invocation: the returned
value, how many outbound service calls were made, and the error messages
shown to the user via `st.error`. -/
structure SuggestCall where
  value : Option String
  apiCalls : Nat
  shownErrors : List String
deriving DecidableEq

/-- Embedding of `get_ai_suggestions` (lines 128-207).  `apiKey` is the
module-level `API_KEY`; `pdfBytes` the raw bytes read from `PDF_PATH`;
`service` models `model.generate_content` on the attached bytes and the
prompt, its outcome covering the whole guarded try block. -/
def get_ai_suggestions (apiKey : Option String) (pdfBytes : List Nat)
    (service : List Nat → String → ApiOutcome)
    (problem_description : String) : SuggestCall :=
  if keyFalsy apiKey then
    { value := none, apiCalls := 0, shownErrors := [apiKeyMissingMsg] }
  else
    match service pdfBytes (promptTemplate problem_description) with
    | .ok t => { value := some t, apiCalls := 1, shownErrors := [] }
    | .err e => { value := none, apiCalls := 1, shownErrors := [apiFailMsg e] }

/-- The three ways the submission branch of `main` (lines 460-468) can
dispatch a submitted form. -/
inductive SubmitAction where
  | warnShort
  | errNoKey
  | suggest (desc : String)
deriving DecidableEq

/-- Embedding of the submission branch of `main` (lines 460-468):
`if not problem_description or len(problem_description) < 20` show the
validation warning, `elif not API_KEY` show the configuration error,
else call `get_ai_suggestions(problem_description)`. -/
def mainSubmit (apiKey : Option String) (desc : String) : SubmitAction :=
  if desc.data.isEmpty || decide (desc.data.length < 20) then .warnShort
  else if keyFalsy apiKey then .errNoKey
  else .suggest desc

/-! Helper lemmas about the fallback scan, the full-text loop and the
embedded-outline rendering. -/

theorem renderCandidates_append (a b : List String) :
    renderCandidates (a ++ b) = renderCandidates a ++ renderCandidates b := by
  induction a with
  | nil => simp [renderCandidates, String.empty_append]
  | cons c cs ih => simp [renderCandidates, ih, String.append_assoc]

theorem scanLine_step (acc : String × Nat) (line : String) :
    scanLine acc line =
      if linePred (pyStrip line) then
        (acc.1 ++ "- " ++ pyStrip line ++ "\n", acc.2 + 1)
      else acc := by
  unfold scanLine linePred
  cases h1 : isTocCand1 (pyStrip line) <;>
    cases h2 : isTocCand2 (pyStrip line) <;> simp [h1, h2]

theorem foldl_scanLine (ls : List String) (acc : String × Nat) :
    ls.foldl scanLine acc =
      (acc.1 ++ renderCandidates ((ls.map pyStrip).filter linePred),
       acc.2 + ((ls.map pyStrip).filter linePred).length) := by
  induction ls generalizing acc with
  | nil => simp [renderCandidates, String.append_empty]
  | cons l ls ih =>
    rw [List.foldl_cons, ih, scanLine_step]
    cases h : linePred (pyStrip l) with
    | false => simp [h]
    | true =>
      simp only [h, if_true, List.map_cons, List.filter_cons, ite_true,
        renderCandidates, List.length_cons, Prod.mk.injEq]
      constructor
      · simp [String.append_assoc]
      · omega

theorem foldl_scanPage (ps : List String) (acc : String × Nat) :
    ps.foldl scanPage acc =
      (acc.1 ++ renderCandidates (candLines ps),
       acc.2 + (candLines ps).length) := by
  induction ps generalizing acc with
  | nil => simp [candLines, renderCandidates, String.append_empty]
  | cons t ps ih =>
    rw [List.foldl_cons]
    show ps.foldl scanPage ((splitLines t).foldl scanLine acc) = _
    rw [ih, foldl_scanLine]
    simp only [candLines, List.flatMap_cons, List.filter_append,
      renderCandidates_append, List.length_append, Prod.mk.injEq]
    constructor
    · simp [String.append_assoc]
    · omega

theorem fallbackScan_eq (pages : List String) :
    fallbackScan pages =
      (tocHeader ++ renderCandidates (matchedLines pages),
       (matchedLines pages).length) := by
  unfold fallbackScan matchedLines
  rw [foldl_scanPage]
  simp

theorem foldl_append_concat {α : Type} (f : α → String) (l : List α) (acc : String) :
    l.foldl (fun a x => a ++ f x) acc = acc ++ concatStrings (l.map f) := by
  induction l generalizing acc with
  | nil => simp [concatStrings, String.append_empty]
  | cons x xs ih => simp [concatStrings, ih, String.append_assoc]

theorem embeddedTocText_eq (toc : List TocEntry) :
    embeddedTocText toc = tocHeader ++ concatStrings (toc.map renderTocEntry) :=
  foldl_append_concat renderTocEntry toc tocHeader

theorem enumFrom_fullText (ts : List String) :
    ∀ (n : Nat) (acc : String),
      (List.enumFrom n ts).foldl
        (fun a p => a ++ "\n\n[Seite " ++ toString (p.1 + 1) ++ "]\n" ++ p.2) acc
        = acc ++ concatStrings ((markedPages (n + 1) ts).map pageBlock) := by
  induction ts with
  | nil => intro n acc; simp [markedPages, concatStrings, String.append_empty]
  | cons t ts ih =>
    intro n acc
    simp only [List.enumFrom, List.foldl_cons]
    rw [ih]
    simp [markedPages, concatStrings, pageBlock, String.append_assoc]

theorem fullTextOf_eq (pages : List String) :
    fullTextOf pages = concatStrings ((markedPages 1 pages).map pageBlock) := by
  have h := enumFrom_fullText pages 0 ""
  simpa [fullTextOf, List.enum, String.empty_append] using h

theorem markedPages_map_fst (ts : List String) :
    ∀ n, (markedPages n ts).map Prod.fst = List.range' n ts.length := by
  induction ts with
  | nil => intro n; simp [markedPages]
  | cons t ts ih => intro n; simp [markedPages, ih, List.range']

theorem markedPages_map_snd (ts : List String) :
    ∀ n, (markedPages n ts).map Prod.snd = ts := by
  induction ts with
  | nil => intro n; simp [markedPages]
  | cons t ts ih => intro n; simp [markedPages, ih]

theorem markedPages_chain (ts : List String) :
    ∀ n, List.Chain' (fun a b => a < b) ((markedPages n ts).map Prod.fst) := by
  induction ts with
  | nil => intro n; exact List.chain'_nil
  | cons t ts ih =>
    intro n
    cases ts with
    | nil => exact List.chain'_singleton _
    | cons t2 ts2 => exact List.chain'_cons.mpr ⟨Nat.lt_succ_self n, ih (n + 1)⟩

theorem takeWhile_space (n : Nat) (rest : List Char) :
    List.takeWhile (fun c => c == ' ') (List.replicate n ' ' ++ '-' :: rest)
      = List.replicate n ' ' := by
  induction n with
  | zero => rfl
  | succ n ih => simp only [List.replicate_succ, List.cons_append,
      List.takeWhile_cons, beq_self_eq_true, ite_true, ih]

theorem countLeadingSpaces_renderTocEntry (e : TocEntry) :
    countLeadingSpaces (renderTocEntry e) = 2 * (e.level - 1) := by
  have hb : ("- " : String).data = '-' :: ' ' :: [] := rfl
  have hm : (String.mk (List.replicate (2 * (e.level - 1)) ' ')).data
      = List.replicate (2 * (e.level - 1)) ' ' := rfl
  unfold countLeadingSpaces renderTocEntry indentFor
  simp only [String.data_append, hb, hm, List.append_assoc, List.cons_append,
    List.nil_append]
  rw [takeWhile_space]
  exact List.length_replicate _ _

/-! Concrete documents and inputs used by the witnesses and the
counterexample. -/

/-- A document without an embedded outline whose first pages yield three
candidate lines. -/
def d1 : Doc :=
  { path := "Oeffentliches_Gestalten.pdf", pathOnDisk := true,
    pages := ["Intro ....... 1\nKapitel 2\nFazit 10", "weiterer Text"],
    toc := [], readFails := false, failMsg := "" }

/-- A document with a two-entry embedded outline. -/
def d3 : Doc :=
  { path := "Oeffentliches_Gestalten.pdf", pathOnDisk := true,
    pages := ["Seite eins"],
    toc := [{ level := 1, title := "Einleitung", page := 3 },
            { level := 2, title := "Methodik", page := 5 }],
    readFails := false, failMsg := "" }

/-- A plain two-page document. -/
def d4 : Doc :=
  { path := "Oeffentliches_Gestalten.pdf", pathOnDisk := true,
    pages := ["erste Seite", "zweite Seite"],
    toc := [], readFails := false, failMsg := "" }

/-- A document whose path does not exist. -/
def d5 : Doc :=
  { path := "Oeffentliches_Gestalten.pdf", pathOnDisk := false,
    pages := [], toc := [], readFails := false, failMsg := "" }

/-- A document that exists but cannot be opened. -/
def d6 : Doc :=
  { path := "Oeffentliches_Gestalten.pdf", pathOnDisk := true,
    pages := ["Text"], toc := [], readFails := true,
    failMsg := "cannot open document" }

/-! The claims. -/

/-- Claim C1: for a document without an embedded outline, if the fallback
scan over the first pages finds fewer than 3 candidate lines then the
outline result is `none` and the non-fatal warning is set (the fatal
error stays absent); if it finds 3 or more, the outline result holds
exactly the matched lines in document order, each rendered as a bullet
line after the fixed header, with no warning. -/
theorem extract_fallback_threshold (d : Doc) (hx : d.pathOnDisk = true)
    (hr : d.readFails = false) (ht : d.toc = []) :
    ((matchedLines d.pages).length < 3 →
      (extract_pdf_data d).toc_text = none ∧
      (extract_pdf_data d).toc_error = some tocWarnMsg ∧
      (extract_pdf_data d).pdf_error = none) ∧
    (3 ≤ (matchedLines d.pages).length →
      (extract_pdf_data d).toc_text =
        some (tocHeader ++ renderCandidates (matchedLines d.pages)) ∧
      (extract_pdf_data d).toc_error = none ∧
      (extract_pdf_data d).pdf_error = none) := by
  constructor
  · intro h
    simp [extract_pdf_data, hx, hr, ht, fallbackScan_eq, h]
  · intro h
    simp [extract_pdf_data, hx, hr, ht, fallbackScan_eq, Nat.not_lt.mpr h]

/-- Witness for C1 on the concrete document `d1`. -/
theorem extract_fallback_threshold_witness :
    3 ≤ (matchedLines d1.pages).length ∧
    ((extract_pdf_data d1).toc_text =
        some (tocHeader ++ renderCandidates (matchedLines d1.pages)) ∧
      (extract_pdf_data d1).toc_error = none ∧
      (extract_pdf_data d1).pdf_error = none) :=
  ⟨by decide, (extract_fallback_threshold d1 rfl rfl rfl).2 (by decide)⟩

/-- Claim C2: in the fallback scan a line is appended (stripped, as a
bullet line, with the candidate count bumped) exactly when the stripped
line either contains a run of three consecutive periods together with a
digit (`isTocCand1`) or is nonempty, ends in a digit and is longer than 3
characters (`isTocCand2`); otherwise the scan state is unchanged. -/
theorem scanLine_matches_heuristic (acc : String × Nat) (line : String) :
    scanLine acc line =
      if isTocCand1 (pyStrip line) || isTocCand2 (pyStrip line) then
        (acc.1 ++ "- " ++ pyStrip line ++ "\n", acc.2 + 1)
      else acc :=
  scanLine_step acc line

/-- Claim C10: a line satisfying both heuristics is appended exactly once
and bumps the candidate count by exactly one, since the second test sits
in the `elif` branch of the first. -/
theorem double_match_counted_once (acc : String × Nat) (line : String)
    (h1 : isTocCand1 (pyStrip line) = true)
    (h2 : isTocCand2 (pyStrip line) = true) :
    scanLine acc line = (acc.1 ++ "- " ++ pyStrip line ++ "\n", acc.2 + 1) := by
  have hboth : isTocCand1 (pyStrip line) = true ∧ isTocCand2 (pyStrip line) = true :=
    ⟨h1, h2⟩
  simp [scanLine, hboth.1]

/-- Witness for C10 on a line matching both heuristics. -/
theorem double_match_counted_once_witness :
    isTocCand1 (pyStrip "Kapitel... 12") = true ∧
    isTocCand2 (pyStrip "Kapitel... 12") = true ∧
    scanLine ("A", 5) "Kapitel... 12" =
      ("A" ++ "- " ++ pyStrip "Kapitel... 12" ++ "\n", 5 + 1) :=
  ⟨by decide, by decide,
    double_match_counted_once ("A", 5) "Kapitel... 12" (by decide) (by decide)⟩

/-- Claim C3: for a document with a non-empty embedded outline the
rendered outline is the fixed header followed by exactly one line per
entry, each line `indent ++ "- " ++ title ++ " (Seite " ++ page ++ ")"`,
where the indentation is `2 * (level - 1)` spaces, hence non-decreasing
in the entries' levels (and strictly increasing for levels at least 1). -/
theorem embedded_toc_rendering (d : Doc) (hx : d.pathOnDisk = true)
    (hr : d.readFails = false) (ht : d.toc ≠ []) :
    (extract_pdf_data d).toc_text =
      some (tocHeader ++ concatStrings (d.toc.map renderTocEntry)) ∧
    (d.toc.map renderTocEntry).length = d.toc.length ∧
    (∀ e ∈ d.toc,
      renderTocEntry e =
        indentFor e.level ++ "- " ++ e.title ++ " (Seite " ++
          toString e.page ++ ")\n" ∧
      countLeadingSpaces (renderTocEntry e) = 2 * (e.level - 1)) ∧
    (∀ e1 ∈ d.toc, ∀ e2 ∈ d.toc,
      (e1.level ≤ e2.level →
        countLeadingSpaces (renderTocEntry e1) ≤
          countLeadingSpaces (renderTocEntry e2)) ∧
      (1 ≤ e1.level → e1.level < e2.level →
        countLeadingSpaces (renderTocEntry e1) <
          countLeadingSpaces (renderTocEntry e2))) := by
  have hne : d.toc.isEmpty = false := by
    cases h : d.toc with
    | nil => exact absurd h ht
    | cons a l => rfl
  refine ⟨?_, by simp, ?_, ?_⟩
  · simp [extract_pdf_data, hx, hr, hne, embeddedTocText_eq]
  · intro e _
    exact ⟨rfl, countLeadingSpaces_renderTocEntry e⟩
  · intro e1 _ e2 _
    rw [countLeadingSpaces_renderTocEntry, countLeadingSpaces_renderTocEntry]
    exact ⟨fun h => by omega, fun h1 h2 => by omega⟩

/-- Witness for C3 on the concrete document `d3`. -/
theorem embedded_toc_rendering_witness :
    (extract_pdf_data d3).toc_text =
      some (tocHeader ++ concatStrings (d3.toc.map renderTocEntry)) :=
  (embedded_toc_rendering d3 rfl rfl (by decide)).1

/-- Claim C4: for every successfully opened document the full-text result
is the concatenation, in page order, of each page's raw text prefixed by
its `[Seite N]` marker; the marker numbers are `1, 2, ...` in strictly
increasing order starting at 1, the page texts are the raw page texts,
and the result does not depend on the outline extraction outcome. -/
theorem full_text_page_markers (d : Doc) (hx : d.pathOnDisk = true)
    (hr : d.readFails = false) :
    (extract_pdf_data d).full_text =
      some (concatStrings ((markedPages 1 d.pages).map pageBlock)) ∧
    (markedPages 1 d.pages).map Prod.fst = List.range' 1 d.pages.length ∧
    List.Chain' (fun a b => a < b) ((markedPages 1 d.pages).map Prod.fst) ∧
    (d.pages ≠ [] → ((markedPages 1 d.pages).map Prod.fst).head? = some 1) ∧
    (markedPages 1 d.pages).map Prod.snd = d.pages ∧
    ∀ toc2 : List TocEntry,
      (extract_pdf_data { d with toc := toc2 }).full_text =
        (extract_pdf_data d).full_text := by
  refine ⟨?_, markedPages_map_fst d.pages 1, markedPages_chain d.pages 1,
    ?_, markedPages_map_snd d.pages 1, ?_⟩
  · simp [extract_pdf_data, hx, hr, fullTextOf_eq]
  · intro hne
    cases hp : d.pages with
    | nil => exact absurd hp hne
    | cons a l => rfl
  · intro toc2
    simp [extract_pdf_data, hx, hr]

/-- Witness for C4 on the concrete document `d4`. -/
theorem full_text_page_markers_witness :
    (extract_pdf_data d4).full_text =
      some (concatStrings ((markedPages 1 d4.pages).map pageBlock)) :=
  (full_text_page_markers d4 rfl rfl).1

/-- Claim C5 counterexample: on a missing path the code leaves the
fatal-error (fourth) position of the tuple empty and puts the
"not found" message in the outline-warning (third) position instead,
contradicting the claim's placement. -/
theorem notfound_error_position_cex :
    (extract_pdf_data d5).pdf_error = none ∧
    (extract_pdf_data d5).toc_error =
      some (notFoundMsg "Oeffentliches_Gestalten.pdf") ∧
    (extract_pdf_data d5).full_text = none ∧
    (extract_pdf_data d5).toc_text = none := by
  decide

/-- Claim C5 as amended: for every path that does not resolve to an
existing resource no further processing happens and the "document not
found" condition is reported in the outline-warning (third) position of
the contract tuple, the fatal-error (fourth) position staying absent;
full text and outline are both absent. -/
theorem notfound_reported_as_warning (d : Doc) (hx : d.pathOnDisk = false) :
    extract_pdf_data d =
      { full_text := none, toc_text := none,
        toc_error := some (notFoundMsg d.path), pdf_error := none } := by
  simp [extract_pdf_data, hx]

/-- Witness for the amended C5 on the concrete document `d5`. -/
theorem notfound_reported_as_warning_witness :
    extract_pdf_data d5 =
      { full_text := none, toc_text := none,
        toc_error := some (notFoundMsg "Oeffentliches_Gestalten.pdf"),
        pdf_error := none } :=
  notfound_reported_as_warning d5 rfl

/-- Claim C6: when opening/reading the document raises, the exception is
captured and returned as the fatal processing error, and the tuple
carries no partial text: full text and outline are both absent. -/
theorem read_failure_fatal (d : Doc) (hx : d.pathOnDisk = true)
    (hf : d.readFails = true) :
    extract_pdf_data d =
      { full_text := none, toc_text := none, toc_error := none,
        pdf_error := some (pdfErrorMsg d.failMsg) } := by
  simp [extract_pdf_data, hx, hf]

/-- Witness for C6 on the concrete document `d6`. -/
theorem read_failure_fatal_witness :
    extract_pdf_data d6 =
      { full_text := none, toc_text := none, toc_error := none,
        pdf_error := some (pdfErrorMsg "cannot open document") } :=
  read_failure_fatal d6 rfl rfl

/-- Claim C7: a submitted description shorter than 20 characters is
rejected with the validation warning and the suggestion requester is
never invoked; a description of exactly 20 characters passes validation
and, with the access credential configured, triggers the suggestion
call. -/
theorem submit_min_length_gate (apiKey : Option String) (desc : String) :
    (desc.data.length < 20 →
      mainSubmit apiKey desc = SubmitAction.warnShort ∧
      ∀ s, mainSubmit apiKey desc ≠ SubmitAction.suggest s) ∧
    (desc.data.length = 20 → keyFalsy apiKey = false →
      mainSubmit apiKey desc = SubmitAction.suggest desc) := by
  constructor
  · intro h
    have hd : decide (desc.data.length < 20) = true := decide_eq_true h
    constructor
    · unfold mainSubmit
      rw [hd]
      simp
    · intro s
      unfold mainSubmit
      rw [hd]
      simp
  · intro h20 hk
    have hd : decide (desc.data.length < 20) = false := by
      rw [h20]; decide
    have he : desc.data.isEmpty = false := by
      cases hp : desc.data with
      | nil => rw [hp] at h20; simp at h20
      | cons a l => rfl
    unfold mainSubmit
    rw [he, hd, hk]
    simp

/-- Witness for C7: a 5-character description is rejected, a 20-character
one dispatches to the suggestion call. -/
theorem submit_min_length_gate_witness :
    mainSubmit (some "key") "kurz." = SubmitAction.warnShort ∧
    mainSubmit (some "key") "abcdefghijklmnopqrst" =
      SubmitAction.suggest "abcdefghijklmnopqrst" :=
  ⟨((submit_min_length_gate (some "key") "kurz.").1 (by decide)).1,
   (submit_min_length_gate (some "key") "abcdefghijklmnopqrst").2
     (by decide) (by decide)⟩

/-- Claim C8: when the access credential is absent (or empty),
`get_ai_suggestions` reports the configuration error and returns `none`
immediately, with zero outbound service calls, for every service. -/
theorem missing_key_no_call (apiKey : Option String) (pdfBytes : List Nat)
    (service : List Nat → String → ApiOutcome) (desc : String)
    (hk : keyFalsy apiKey = true) :
    get_ai_suggestions apiKey pdfBytes service desc =
      { value := none, apiCalls := 0, shownErrors := [apiKeyMissingMsg] } := by
  simp [get_ai_suggestions, hk]

/-- Witness for C8 with an absent credential. -/
theorem missing_key_no_call_witness :
    get_ai_suggestions none [] (fun _ _ => ApiOutcome.ok "Antwort")
        "Beschreibung lang genug" =
      { value := none, apiCalls := 0, shownErrors := [apiKeyMissingMsg] } :=
  missing_key_no_call none [] (fun _ _ => ApiOutcome.ok "Antwort")
    "Beschreibung lang genug" rfl

/-- Claim C9: with a configured credential, `get_ai_suggestions` returns
the service response's text payload unmodified on success (no error
shown), and on any failure it catches it, shows a diagnostic that is the
fixed prefix followed by the failure detail, and returns `none` — the
failure never propagates past this boundary. -/
theorem service_result_boundary (apiKey : Option String) (pdfBytes : List Nat)
    (service : List Nat → String → ApiOutcome) (desc : String)
    (hk : keyFalsy apiKey = false) :
    (∀ t, service pdfBytes (promptTemplate desc) = ApiOutcome.ok t →
      get_ai_suggestions apiKey pdfBytes service desc =
        { value := some t, apiCalls := 1, shownErrors := [] }) ∧
    (∀ e, service pdfBytes (promptTemplate desc) = ApiOutcome.err e →
      get_ai_suggestions apiKey pdfBytes service desc =
        { value := none, apiCalls := 1, shownErrors := [apiFailMsg e] } ∧
      apiFailMsg e =
        "Fehler bei der Kommunikation mit der Gemini API: " ++ e) := by
  constructor
  · intro t h
    simp [get_ai_suggestions, hk, h]
  · intro e h
    exact ⟨by simp [get_ai_suggestions, hk, h], rfl⟩

/-- Witness for C9 with a failing service call. -/
theorem service_result_boundary_witness :
    get_ai_suggestions (some "key") []
        (fun _ _ => ApiOutcome.err "quota exceeded") "Problem" =
      { value := none, apiCalls := 1,
        shownErrors := [apiFailMsg "quota exceeded"] } ∧
    apiFailMsg "quota exceeded" =
      "Fehler bei der Kommunikation mit der Gemini API: " ++ "quota exceeded" :=
  (service_result_boundary (some "key") []
    (fun _ _ => ApiOutcome.err "quota exceeded") "Problem" rfl).2
    "quota exceeded" rfl
